import Mathlib

/-!
Verification development for the RescuelinkAI repository.

The repository is a React emergency-reporting demo. Its behavioural core is:
  * `src/services/emergencyDispatch.ts` — two iterations of a mock dispatch
    service (a US-table version and an India call-transfer version, kept in
    the same file), which fabricate phone-call outcomes from `Math.random()`
    draws compared against fixed thresholds;
  * `src/hooks/useVapi.ts` — the base voice-session hook mirroring SDK
    callback events into UI state;
  * an enhanced hook iteration with transfer retry logic, emergency-phrase
    transcript scanning and a three-attempt fallback.

The shallow embedding below models every `Math.random()` draw as an explicit
rational argument in `[0,1)` (no constraint is imposed unless needed), every
`setTimeout` as a recorded delay value, and every awaited step that could
reject as an explicit `Step` oracle outcome.  JavaScript string truthiness is
modelled as non-emptiness, `undefined`-able values as `Option`.
-/

namespace Rescuelink

/-- A row of the `emergencyContacts` tables in `emergencyDispatch.ts`. -/
structure EmergencyContact where
  service : String
  number : String
  priority : ℕ
  capabilities : List String
deriving Repr, DecidableEq

/-- The inline `location` record of `EmergencyDispatchData`. -/
structure EmergencyLocation where
  lat : Option ℚ
  lng : Option ℚ
  address : String
deriving Repr, DecidableEq

/-- `EmergencyDispatchData` from `emergencyDispatch.ts` (identical in both
iterations of the service). -/
structure EmergencyDispatchData where
  emergencyType : String
  location : EmergencyLocation
  urgencyLevel : ℚ
  peopleInvolved : Option String
  casualties : Option String
  immediateHazards : Option String
  description : Option String
  timestamp : String
  callerId : Option String
  transcript : Option String
deriving Repr, DecidableEq

/-- Outcome of an awaited step: a resolved value or a rejected promise
carrying an error message. -/
inductive Step (α : Type) where
  | ok : α → Step α
  | thrown : String → Step α
deriving Repr

/-- The comparator `(a, b) => a.priority - b.priority` used by both
`getRelevantServices` implementations, as an ordering relation. -/
def priorityOrder (a b : EmergencyContact) : Prop :=
  a.priority ≤ b.priority

instance : DecidableRel priorityOrder := fun a b => Nat.decLe a.priority b.priority

instance : IsTotal EmergencyContact priorityOrder :=
  ⟨fun a b => Nat.le_total a.priority b.priority⟩

instance : IsTrans EmergencyContact priorityOrder :=
  ⟨fun _ _ _ => Nat.le_trans⟩

namespace US

/-- `DispatchResponse` of the US iteration of the service. -/
structure DispatchResponse where
  success : Bool
  dispatchId : String
  servicesContacted : List String
  estimatedArrival : ℤ
  errors : Option (List String)
deriving Repr, DecidableEq

/-- The `'US'` emergency-contact table (`getCountryCode` returns `'US'` in
this iteration, so the other tables are never consulted). -/
def emergencyContacts : List EmergencyContact :=
  [ ⟨"Emergency Services (911)", "911", 1, ["medical", "fire", "crime", "other"]⟩,
    ⟨"Fire Department", "911", 2, ["fire"]⟩,
    ⟨"Police Department", "911", 2, ["crime"]⟩,
    ⟨"Emergency Medical Services", "911", 2, ["medical"]⟩,
    ⟨"Poison Control", "1-800-222-1222", 3, ["medical"]⟩,
    ⟨"Crisis Hotline", "988", 3, ["other"]⟩ ]

/-- `getRelevantServices`: filter the table by capability/urgency and sort
ascending by priority (JavaScript `Array.prototype.sort` is stable, as is
`List.insertionSort`). -/
def getRelevantServices (emergencyType : String) (urgencyLevel : ℚ) :
    List EmergencyContact :=
  List.insertionSort priorityOrder
    (emergencyContacts.filter fun s =>
      s.capabilities.contains emergencyType ||
      s.capabilities.contains "other" ||
      (decide (4 ≤ urgencyLevel) && s.priority == 1))

/-- Result record of `simulateEmergencyCall`. -/
structure CallAttemptResult where
  delayMs : ℚ
  success : Bool
  error : Option String
deriving Repr, DecidableEq

/-- `simulateEmergencyCall`: delay `1000 + Math.random() * 2000`,
then succeed exactly when a second `Math.random()` draw exceeds `0.05`. -/
def simulateEmergencyCall (delayDraw successDraw : ℚ) : CallAttemptResult :=
  { delayMs := 1000 + delayDraw * 2000
    success := decide (5 / 100 < successDraw)
    error := if 5 / 100 < successDraw then none
             else some "Network timeout or busy signal" }

/-- `makeEmergencyCall` resolves to the `success` field of
`simulateEmergencyCall` (its own `catch` only converts a rejection into
`false`; the rejection case is modelled at the dispatch level by the
`Step` oracle). -/
def makeEmergencyCall (contact : EmergencyContact) (delayDraw successDraw : ℚ) :
    Bool :=
  (simulateEmergencyCall delayDraw successDraw).success

/-- Oracle for one run of `dispatchEmergencyServices`: the resolution of
`sendDataToDispatchCenter`, the pair of `Math.random()` draws consumed by
each `makeEmergencyCall` (or a rejection), and the draw consumed by
`calculateEstimatedArrival`. -/
structure DispatchEnv where
  sendData : Step Bool
  callDraws : ℕ → Step (ℚ × ℚ)
  arrivalDraw : ℚ

/-- The oracle in which every awaited step resolves normally and the i-th
emergency call consumes the draw pair `callDraws i`. -/
def pureEnv (callDraws : ℕ → ℚ × ℚ) (arrivalDraw : ℚ) : DispatchEnv :=
  { sendData := Step.ok true
    callDraws := fun i => Step.ok (callDraws i)
    arrivalDraw := arrivalDraw }

/-- `calculateEstimatedArrival` (US): base time by type, scaled by urgency,
plus `(Math.random() - 0.5) * 4`, rounded (`Math.round` is `round` on ℚ)
and clamped below by 3. -/
def calculateEstimatedArrival (data : EmergencyDispatchData) (draw : ℚ) : ℤ :=
  let baseTime : ℚ :=
    if data.emergencyType = "medical" then 8
    else if data.emergencyType = "fire" then 6
    else if data.emergencyType = "crime" then 12
    else if data.emergencyType = "other" then 15
    else 15
  let baseTime :=
    if 4 ≤ data.urgencyLevel then baseTime * (7 / 10)
    else if data.urgencyLevel ≤ 2 then baseTime * (13 / 10)
    else baseTime
  let variation := (draw - 1 / 2) * 4
  max 3 (round (baseTime + variation))

/-- The contact loop of `dispatchEmergencyServices` (step 3): call each
relevant service in order, accumulate contacted names and failure messages,
`break` once the `servicesContacted` quota is met; a rejected call aborts the
`try` block with the services contacted so far. -/
def contactLoop (data : EmergencyDispatchData) (env : DispatchEnv) :
    List EmergencyContact → ℕ → List String → List String →
    Except (String × List String) (List String × List String)
  | [], _, contacted, errs => Except.ok (contacted, errs)
  | contact :: rest, i, contacted, errs =>
    match env.callDraws i with
    | Step.thrown e => Except.error (e, contacted)
    | Step.ok dp =>
      let success := makeEmergencyCall contact dp.1 dp.2
      let contacted2 := if success then contacted ++ [contact.service] else contacted
      let errs2 := if success then errs
                   else errs ++ ["Failed to contact " ++ contact.service]
      if 4 ≤ data.urgencyLevel ∧ 2 ≤ contacted2.length then
        Except.ok (contacted2, errs2)
      else if 1 ≤ contacted2.length then
        Except.ok (contacted2, errs2)
      else
        contactLoop data env rest (i + 1) contacted2 errs2

/-- The `try` block of `dispatchEmergencyServices` (US): send data, contact
the relevant services, compute the arrival estimate.  An error carries the
message and the `servicesContacted` accumulated so far. -/
def runDispatchBody (data : EmergencyDispatchData) (env : DispatchEnv) :
    Except (String × List String) (List String × List String × ℤ) :=
  match env.sendData with
  | Step.thrown e => Except.error (e, [])
  | Step.ok _ =>
    let relevantServices := getRelevantServices data.emergencyType data.urgencyLevel
    match contactLoop data env relevantServices 0 [] [] with
    | Except.error (e, contacted) => Except.error (e, contacted)
    | Except.ok (contacted, errs) =>
      Except.ok (contacted, errs, calculateEstimatedArrival data env.arrivalDraw)

/-- `dispatchEmergencyServices` (US iteration): run the body; the `catch`
clause returns `success: false`, the entry `dispatchId`, the services
contacted so far, `estimatedArrival: 0` and a system-error entry. -/
def dispatchEmergencyServices (data : EmergencyDispatchData) (dispatchId : String)
    (env : DispatchEnv) : DispatchResponse :=
  match runDispatchBody data env with
  | Except.ok (contacted, errs, arrival) =>
    { success := decide (0 < contacted.length)
      dispatchId := dispatchId
      servicesContacted := contacted
      estimatedArrival := arrival
      errors := if 0 < errs.length then some errs else none }
  | Except.error (e, contacted) =>
    { success := false
      dispatchId := dispatchId
      servicesContacted := contacted
      estimatedArrival := 0
      errors := some ["System error: " ++ e] }

end US

namespace IN

/-- `DispatchResponse` of the India iteration (adds `transferInitiated` and
`twilioCallSid`; both return sites set `transferInitiated`, while
`twilioCallSid` stays `undefined` when the transfer fails). -/
structure DispatchResponse where
  success : Bool
  dispatchId : String
  servicesContacted : List String
  estimatedArrival : ℤ
  transferInitiated : Bool
  twilioCallSid : Option String
  errors : Option (List String)
deriving Repr, DecidableEq

/-- The `'IN'` emergency-contact table (`getCountryCode` returns `'IN'`). -/
def emergencyContacts : List EmergencyContact :=
  [ ⟨"Emergency Services (Direct Transfer)", "+919714766855", 1,
      ["medical", "fire", "crime", "other"]⟩,
    ⟨"Police (Transfer)", "+919714766855", 2, ["crime"]⟩,
    ⟨"Fire Department (Transfer)", "+919714766855", 2, ["fire"]⟩,
    ⟨"Ambulance (Transfer)", "+919714766855", 2, ["medical"]⟩,
    ⟨"Disaster Management (Transfer)", "+919714766855", 3, ["other"]⟩ ]

/-- `getRelevantServices` (India): same filter and stable priority sort over
the `'IN'` table. -/
def getRelevantServices (emergencyType : String) (urgencyLevel : ℚ) :
    List EmergencyContact :=
  List.insertionSort priorityOrder
    (emergencyContacts.filter fun s =>
      s.capabilities.contains emergencyType ||
      s.capabilities.contains "other" ||
      (decide (4 ≤ urgencyLevel) && s.priority == 1))

/-- Result record of `simulateTwilioTransferAPI`. -/
structure TwilioTransferResult where
  delayMs : ℚ
  success : Bool
  callSid : Option String
  error : Option String
deriving Repr, DecidableEq

/-- `simulateTwilioTransferAPI`: delay `1500 + Math.random() * 2000`, then
succeed exactly when a second draw exceeds `0.15`; on success a call SID
`CA` followed by a random suffix is fabricated (the suffix is passed in as
`sidDraw`). -/
def simulateTwilioTransferAPI (delayDraw successDraw : ℚ) (sidDraw : String) :
    TwilioTransferResult :=
  { delayMs := 1500 + delayDraw * 2000
    success := decide (15 / 100 < successDraw)
    callSid := if 15 / 100 < successDraw then some ("CA" ++ sidDraw) else none
    error := if 15 / 100 < successDraw then none
             else some "Twilio API Error: Unable to create call - emergency line busy or unreachable" }

/-- `initiateTwilioCallTransfer` forwards the simulated API result
(its `catch` cannot fire in this model). -/
def initiateTwilioCallTransfer (delayDraw successDraw : ℚ) (sidDraw : String) :
    TwilioTransferResult :=
  simulateTwilioTransferAPI delayDraw successDraw sidDraw

/-- `calculateEstimatedArrival` (India): base 12/8/15/20 by type, `* 0.6`
when urgency ≥ 4, `* 1.4` when urgency ≤ 2, plus `(Math.random() - 0.5) * 6`,
rounded and clamped below by 5. -/
def calculateEstimatedArrival (data : EmergencyDispatchData) (draw : ℚ) : ℤ :=
  let baseTime : ℚ :=
    if data.emergencyType = "medical" then 12
    else if data.emergencyType = "fire" then 8
    else if data.emergencyType = "crime" then 15
    else if data.emergencyType = "other" then 20
    else 20
  let baseTime :=
    if 4 ≤ data.urgencyLevel then baseTime * (6 / 10)
    else if data.urgencyLevel ≤ 2 then baseTime * (14 / 10)
    else baseTime
  let variation := (draw - 1 / 2) * 6
  max 5 (round (baseTime + variation))

/-- `dispatchEmergencyServices` (India iteration), non-exception path:
attempt the Twilio transfer, push the fixed transfer-service name on
success or an error entry on failure, then unconditionally append up to two
backup services from `getRelevantServices` (skipping duplicates), and
return `success: transferInitiated || servicesContacted.length > 0`. -/
def dispatchEmergencyServices (data : EmergencyDispatchData) (dispatchId : String)
    (tDelayDraw tSuccessDraw : ℚ) (sidDraw : String) (arrivalDraw : ℚ) :
    DispatchResponse :=
  let transferResult := initiateTwilioCallTransfer tDelayDraw tSuccessDraw sidDraw
  let transferInitiated := transferResult.success
  let twilioCallSid := if transferResult.success then transferResult.callSid else none
  let contacted0 : List String :=
    if transferResult.success then ["Emergency Services (Direct Transfer)"] else []
  let errs : List String :=
    if transferResult.success then []
    else ["Call transfer failed: " ++ transferResult.error.getD "undefined"]
  let relevantServices := getRelevantServices data.emergencyType data.urgencyLevel
  let servicesContacted :=
    (relevantServices.take 2).foldl
      (fun acc s => if acc.contains s.service then acc else acc ++ [s.service])
      contacted0
  { success := transferInitiated || decide (0 < servicesContacted.length)
    dispatchId := dispatchId
    servicesContacted := servicesContacted
    estimatedArrival := calculateEstimatedArrival data arrivalDraw
    transferInitiated := transferInitiated
    twilioCallSid := twilioCallSid
    errors := if 0 < errs.length then some errs else none }

/-- Oracle for one run of the India `dispatchEmergencyServices`: the
resolution of `sendDataToDispatchCenter`, the resolution of
`initiateTwilioCallTransfer` (the draws and SID suffix it consumes when it
resolves, or a rejection), and the draw consumed by
`calculateEstimatedArrival`.  These are the `try` block's only await sites:
the backup loop and the arrival computation that follow are synchronous. -/
structure DispatchEnv where
  sendData : Step Bool
  transfer : Step (ℚ × ℚ × String)
  arrivalDraw : ℚ

/-- The oracle in which every awaited step resolves normally. -/
def pureEnv (tDelayDraw tSuccessDraw : ℚ) (sidDraw : String) (arrivalDraw : ℚ) :
    DispatchEnv :=
  { sendData := Step.ok true
    transfer := Step.ok (tDelayDraw, tSuccessDraw, sidDraw)
    arrivalDraw := arrivalDraw }

/-- The `try` block of the India `dispatchEmergencyServices`: send data,
attempt the Twilio transfer, append the backup services, compute the arrival
estimate.  An error carries the message and the `servicesContacted`
accumulated so far — still empty at either await site, since both precede
every push. -/
def runDispatchBody (data : EmergencyDispatchData) (env : DispatchEnv) :
    Except (String × List String)
      (Bool × Option String × List String × List String × ℤ) :=
  match env.sendData with
  | Step.thrown e => Except.error (e, [])
  | Step.ok _ =>
    match env.transfer with
    | Step.thrown e => Except.error (e, [])
    | Step.ok td =>
      let transferResult := initiateTwilioCallTransfer td.1 td.2.1 td.2.2
      let transferInitiated := transferResult.success
      let twilioCallSid := if transferResult.success then transferResult.callSid
                           else none
      let contacted0 : List String :=
        if transferResult.success then ["Emergency Services (Direct Transfer)"]
        else []
      let errs : List String :=
        if transferResult.success then []
        else ["Call transfer failed: " ++ transferResult.error.getD "undefined"]
      let relevantServices := getRelevantServices data.emergencyType data.urgencyLevel
      let servicesContacted :=
        (relevantServices.take 2).foldl
          (fun acc s => if acc.contains s.service then acc else acc ++ [s.service])
          contacted0
      Except.ok (transferInitiated, twilioCallSid, servicesContacted, errs,
        calculateEstimatedArrival data env.arrivalDraw)

/-- The India `dispatchEmergencyServices` with its awaited steps mediated by
a `Step` oracle; under `pureEnv` it agrees definitionally with the
draw-level model above (`in_dispatchEnv_pure_eq`).  The `catch` clause
(the India iteration's) returns `success: false`, the entry `dispatchId`,
the services contacted so far, `estimatedArrival: 0`,
`transferInitiated: false` and a system-error entry. -/
def dispatchEmergencyServicesEnv (data : EmergencyDispatchData)
    (dispatchId : String) (env : DispatchEnv) : DispatchResponse :=
  match runDispatchBody data env with
  | Except.ok (transferInitiated, twilioCallSid, servicesContacted, errs, arrival) =>
    { success := transferInitiated || decide (0 < servicesContacted.length)
      dispatchId := dispatchId
      servicesContacted := servicesContacted
      estimatedArrival := arrival
      transferInitiated := transferInitiated
      twilioCallSid := twilioCallSid
      errors := if 0 < errs.length then some errs else none }
  | Except.error (e, servicesContacted) =>
    { success := false
      dispatchId := dispatchId
      servicesContacted := servicesContacted
      estimatedArrival := 0
      transferInitiated := false
      twilioCallSid := none
      errors := some ["System error: " ++ e] }

end IN

/-- The `callStatus` union of both hooks. -/
inductive CallStatus where
  | idle | connecting | connected | transferring | transferred | ended
deriving Repr, DecidableEq

/-- The `dispatchStatus` union of both hooks. -/
inductive DispatchStatus where
  | idle | dispatching | dispatched | failed
deriving Repr, DecidableEq

namespace BaseHook

/-- The nested `error.error` object inspected by the base hook's `error`
handler (`msg` and `type` fields, each possibly absent). -/
structure VapiInnerError where
  msg : Option String
  errType : Option String
deriving Repr, DecidableEq

/-- The error object delivered to the `error` event handler. -/
structure VapiError where
  errorMsg : Option String
  error : Option VapiInnerError
deriving Repr, DecidableEq

/-- JavaScript truthiness of a possibly-absent string. -/
def truthy : Option String → Bool
  | none => false
  | some s => s ≠ ""

/-- UI state mirrored by the base hook (the fields the mirrored events
touch). -/
structure HookState where
  isSessionActive : Bool
  callStatus : CallStatus
  dispatchStatus : DispatchStatus
  vapiErrorMessage : String
deriving Repr, DecidableEq

/-- `vapiInstance.on('call-start')`: connected, session active, error
message cleared. -/
def onCallStart (st : HookState) : HookState :=
  { st with callStatus := CallStatus.connected
            isSessionActive := true
            vapiErrorMessage := "" }

/-- `vapiInstance.on('call-end')`: ended, session inactive. -/
def onCallEnd (st : HookState) : HookState :=
  { st with callStatus := CallStatus.ended
            isSessionActive := false }

/-- The `switch (error.error.type)` of the base hook's `error` handler. -/
def switchMessage (t : String) (msg : Option String) : String :=
  if t = "ejected" then
    "Call was terminated by Vapi. This may be due to: API key issues, account limits reached, or assistant configuration problems. Please check your Vapi dashboard for more details."
  else if t = "network" then
    "Network connection lost. Please check your internet connection and try again."
  else if t = "timeout" then
    "Call timed out. Please try starting a new call."
  else if t = "authentication" then
    "Authentication failed. Please verify your Vapi API key is correct and active."
  else if t = "quota_exceeded" then
    "API quota exceeded. Please check your Vapi account credits and usage limits."
  else if t = "assistant_not_found" then
    "Assistant configuration not found. Please check your assistant ID or configuration."
  else if t = "invalid_request" then
    "Invalid request sent to Vapi. Please check your assistant configuration."
  else
    "Call error (" ++ t ++ "): " ++
      (if truthy msg then msg.getD "" else "Unknown error occurred")

/-- The `error.error` part of the error-message computation: a truthy
`error.error.msg` wins, else a truthy `error.error.type` selects the switch,
else the initial `'Call ended unexpectedly'` stands. -/
def innerErrorMessage (inner : VapiInnerError) : String :=
  if truthy inner.msg then inner.msg.getD ""
  else if truthy inner.errType then switchMessage (inner.errType.getD "") inner.msg
  else "Call ended unexpectedly"

/-- The error-message computation of the base hook's `error` handler
(`errorMessage` starts as `'Call ended unexpectedly'` and is replaced by the
first truthy candidate; a `none` argument models a non-object error). -/
def computeErrorMessage : Option VapiError → String
  | none => "Call ended unexpectedly"
  | some err =>
    if truthy err.errorMsg then err.errorMsg.getD ""
    else
      match err.error with
      | some inner => innerErrorMessage inner
      | none => "Call ended unexpectedly"

/-- `vapiInstance.on('error')`: record the computed message, end the call,
deactivate the session. -/
def onError (e : Option VapiError) (st : HookState) : HookState :=
  { st with vapiErrorMessage := computeErrorMessage e
            callStatus := CallStatus.ended
            isSessionActive := false }

/-- Result record of `simulateTwilioTransfer` (base hook). -/
structure TransferSimResult where
  delayMs : ℚ
  success : Bool
  error : Option String
deriving Repr, DecidableEq

/-- `simulateTwilioTransfer` (base hook): fixed 2000 ms delay, then succeed
exactly when the draw exceeds `0.1`. -/
def simulateTwilioTransfer (draw : ℚ) : TransferSimResult :=
  { delayMs := 2000
    success := decide (1 / 10 < draw)
    error := if 1 / 10 < draw then none
             else some "Transfer failed - emergency line busy" }

/-- The sequence of `dispatchStatus` assignments made by one run of
`initiateCallTransfer` (base hook): `'dispatching'` unconditionally at
entry; `'dispatched'` when the data is complete and the dispatch collaborator
reports success; `'failed'` when the Twilio transfer fails or the `catch`
fires. -/
def initiateCallTransferTrace (dataComplete dispatchSuccess transferSuccess : Bool) :
    List DispatchStatus :=
  [DispatchStatus.dispatching]
    ++ (if dataComplete && dispatchSuccess then [DispatchStatus.dispatched] else [])
    ++ (if transferSuccess then [] else [DispatchStatus.failed])

end BaseHook

namespace EnhancedHook

/-- `CallTransferStatus.status` of the enhanced hook. -/
inductive TransferState where
  | idle | initiating | connecting | connected | failed | completed
deriving Repr, DecidableEq

/-- The enhanced hook's partial `EmergencyData` record (the fields the
embedded logic reads; absent keys are `none`). -/
structure EmergencyData where
  emergencyType : Option String
  location : Option EmergencyLocation
  urgencyLevel : Option ℚ
  peopleInvolved : Option String
  casualties : Option String
  immediateHazards : Option String
  description : Option String
deriving Repr, DecidableEq

/-- The guard `data.emergencyType && data.location?.address` (string
truthiness). -/
def dataComplete (d : EmergencyData) : Bool :=
  match d.emergencyType, d.location with
  | some t, some loc => t ≠ "" && loc.address ≠ ""
  | _, _ => false

/-- The `EmergencyDispatchData` built in step 2 of
`initiateEmergencyTransfer` (`urgencyLevel || 5`, with `0` falsy). -/
def toDispatchData (d : EmergencyData) (timestamp transcriptStr : String) :
    EmergencyDispatchData :=
  { emergencyType := d.emergencyType.getD ""
    location := d.location.getD ⟨none, none, ""⟩
    urgencyLevel :=
      match d.urgencyLevel with
      | some u => if u = 0 then 5 else u
      | none => 5
    peopleInvolved := d.peopleInvolved
    casualties := d.casualties
    immediateHazards := d.immediateHazards
    description := d.description
    timestamp := timestamp
    callerId := none
    transcript := some transcriptStr }

/-- The fallback `EmergencyDispatchData` built in `handleTransferError`
after the final attempt (`emergencyType || 'unknown'`,
`location || { address: 'Location not provided' }`, `urgencyLevel || 5`). -/
def toFallbackDispatchData (d : EmergencyData) (timestamp transcriptStr : String) :
    EmergencyDispatchData :=
  { emergencyType :=
      match d.emergencyType with
      | some t => if t = "" then "unknown" else t
      | none => "unknown"
    location := d.location.getD ⟨none, none, "Location not provided"⟩
    urgencyLevel :=
      match d.urgencyLevel with
      | some u => if u = 0 then 5 else u
      | none => 5
    peopleInvolved := d.peopleInvolved
    casualties := d.casualties
    immediateHazards := d.immediateHazards
    description := d.description
    timestamp := timestamp
    callerId := none
    transcript := some transcriptStr }

/-- Result record of `simulateEmergencyServiceCall` (enhanced hook). -/
structure ServiceCallResult where
  delayMs : ℚ
  success : Bool
  callId : Option String
  error : Option String
deriving Repr, DecidableEq

/-- `simulateEmergencyServiceCall`: delay `2000 + Math.random() * 3000`,
then succeed exactly when a second draw exceeds `0.05`; on success a call id
is fabricated (passed in as `callIdDraw`). -/
def simulateEmergencyServiceCall (delayDraw successDraw : ℚ) (callIdDraw : String) :
    ServiceCallResult :=
  { delayMs := 2000 + delayDraw * 3000
    success := decide (5 / 100 < successDraw)
    callId := if 5 / 100 < successDraw then some ("EMERGENCY-" ++ callIdDraw) else none
    error := if 5 / 100 < successDraw then none
             else some "Emergency line busy - retrying..." }

/-- The `emergencyPhrases` list scanned by the enhanced hook's `message`
handler. -/
def emergencyPhrases : List String :=
  [ "emergency", "help", "urgent", "911", "112", "ambulance", "fire", "police",
    "accident", "heart attack", "can\x27t breathe", "bleeding", "unconscious",
    "trapped", "robbery", "assault", "contact emergency services", "call emergency" ]

/-- `String.prototype.toLowerCase` (ASCII case mapping, applied
character-wise). -/
def toLowerStr (s : String) : String :=
  String.mk (s.data.map Char.toLower)

/-- JavaScript `String.prototype.includes`: contiguous-substring test. -/
def containsSubstr (s pat : String) : Bool :=
  decide (pat.data <:+: s.data)

/-- The opening and closing brace characters (written via `Char.ofNat`). -/
def lbrace : Char := Char.ofNat 123

def rbrace : Char := Char.ofNat 125

/-- Helper for the regex `/\x7b[^\x7d]*\x7d/`: consume characters up to and
including the first closing brace, if any. -/
def upToClose : List Char → Option (List Char)
  | [] => none
  | c :: rest =>
    if c = rbrace then some [c]
    else (upToClose rest).map (fun l => c :: l)

/-- First match of the regex `/\x7b[^\x7d]*\x7d/` in a character list: the
match runs from the first opening brace to the first closing brace after it
(the character class admits every character but a closing brace, so nested
opening braces are consumed by it). -/
def jsonMatchChars : List Char → Option (List Char)
  | [] => none
  | c :: rest =>
    if c = lbrace then (upToClose rest).map (fun l => c :: l)
    else jsonMatchChars rest

/-- `message.transcript.match(/\x7b[^\x7d]*\x7d/)`, first capture. -/
def jsonMatch (s : String) : Option String :=
  (jsonMatchChars s.data).map (fun l => String.mk l)

/-- JavaScript object spread `{ ...a, ...b }` on partial emergency data:
keys present in `b` win. -/
def mergeData (a b : EmergencyData) : EmergencyData :=
  { emergencyType := (b.emergencyType).orElse fun _ => a.emergencyType
    location := (b.location).orElse fun _ => a.location
    urgencyLevel := (b.urgencyLevel).orElse fun _ => a.urgencyLevel
    peopleInvolved := (b.peopleInvolved).orElse fun _ => a.peopleInvolved
    casualties := (b.casualties).orElse fun _ => a.casualties
    immediateHazards := (b.immediateHazards).orElse fun _ => a.immediateHazards
    description := (b.description).orElse fun _ => a.description }

/-- The hook state read by the `message` handler. -/
structure MsgState where
  transferState : TransferState
  emergencyData : EmergencyData
deriving Repr, DecidableEq

/-- State-changing calls issued by the `message` handler, in order. -/
inductive HandlerAction where
  | appendTranscript : String → HandlerAction
  | setEmergencyData : EmergencyData → HandlerAction
  | initiateTransfer : EmergencyData → String → HandlerAction
deriving Repr, DecidableEq

/-- The transcript branch of the enhanced hook's `message` handler for a
`transcript`-type message: append the text; when the lowercased text
contains an emergency phrase and the transfer status is `'idle'`, initiate a
transfer; when the raw text contains `EMERGENCY_DATA_COLLECTED`, extract the
first brace-delimited run and, when `JSON.parse` succeeds on it (`parse`
models that platform builtin), merge the parsed data into the state and
initiate a transfer. -/
def onTranscriptMessage (st : MsgState) (msgTranscript : String)
    (parse : String → Option EmergencyData) : List HandlerAction :=
  if msgTranscript = "" then [] else
  let lowered := toLowerStr msgTranscript
  let phraseActions :=
    if emergencyPhrases.any (fun phrase => containsSubstr lowered phrase)
        && (st.transferState == TransferState.idle) then
      [HandlerAction.initiateTransfer st.emergencyData "emergency_phrase_detected"]
    else []
  let dataActions :=
    if containsSubstr msgTranscript "EMERGENCY_DATA_COLLECTED" then
      match jsonMatch msgTranscript with
      | some jsonText =>
        match parse jsonText with
        | some collected =>
          [HandlerAction.setEmergencyData (mergeData st.emergencyData collected),
           HandlerAction.initiateTransfer (mergeData st.emergencyData collected)
             "data_collected"]
        | none => []
      | none => []
    else []
  HandlerAction.appendTranscript msgTranscript :: (phraseActions ++ dataActions)

/-- The `Math.random()` draws (and fabricated identifier strings) consumed
by one transfer attempt: the Twilio draws of the per-attempt dispatch (step
2), the arrival-estimate draw, the `simulateEmergencyServiceCall` draws, and
the draws of the fallback dispatch that `handleTransferError` runs after the
final failed attempt. -/
structure AttemptDraws where
  transferDelayDraw : ℚ
  transferDraw : ℚ
  sidDraw : String
  arrivalDraw : ℚ
  callDelayDraw : ℚ
  callDraw : ℚ
  fallbackTransferDelayDraw : ℚ
  fallbackTransferDraw : ℚ
  fallbackSidDraw : String
  fallbackArrivalDraw : ℚ
deriving Repr, DecidableEq

/-- Observable outcome of a transfer session: final
`transferStatus.attempts`, the ordered `dispatchStatus` assignments, the
final transfer and call statuses, whether the after-three-failures dispatch
fallback fired, and the response of that fallback dispatch when it did. -/
structure SessionResult where
  attempts : ℕ
  dispatchTrace : List DispatchStatus
  transferState : TransferState
  callStatus : CallStatus
  fellBack : Bool
  fallbackNotification : Option IN.DispatchResponse
deriving Repr, DecidableEq

/-- The `dispatchStatus` assignments made by step 2 of one
`initiateEmergencyTransfer` attempt: when the data is complete,
`'dispatching'` and — when the India dispatch collaborator reports
success — `'dispatched'`; nothing otherwise. -/
def attemptDispatchPrefix (data : EmergencyData)
    (timestamp transcriptStr dispatchId : String) (d : AttemptDraws) :
    List DispatchStatus :=
  if dataComplete data then
    DispatchStatus.dispatching ::
      (if (IN.dispatchEmergencyServices (toDispatchData data timestamp transcriptStr)
            dispatchId d.transferDelayDraw d.transferDraw d.sidDraw
            d.arrivalDraw).success then
        [DispatchStatus.dispatched]
      else [])
  else []

/-- One `initiateEmergencyTransfer` attempt of the enhanced hook, chained
through `handleTransferError`'s retries.  `prevAttempts` is
`transferStatus.attempts` when the attempt starts, and `remaining` is the
structural-recursion image of the retry guard: the invariant
`remaining = 3 - prevAttempts` holds on every call from `runSession`, so the
code's `attempt < 3` test is exactly `2 ≤ remaining`.

Per attempt: step 2 contributes `attemptDispatchPrefix`; step 3 runs
`simulateEmergencyServiceCall`, whose draw decides success.  On success the
transfer reaches `'connected'` and the call `'transferred'`.  On failure
`handleTransferError` retries while the guard holds; otherwise it runs the
fallback dispatch and sets `dispatchStatus` directly to `'dispatched'`. -/
def runTransferAttempts (data : EmergencyData)
    (timestamp transcriptStr dispatchId : String) (draws : ℕ → AttemptDraws) :
    (prevAttempts remaining : ℕ) → SessionResult
  | prevAttempts, remaining =>
    let currentAttempt := prevAttempts + 1
    let d := draws currentAttempt
    let dispatchedPrefix :=
      attemptDispatchPrefix data timestamp transcriptStr dispatchId d
    if 5 / 100 < d.callDraw then
      { attempts := currentAttempt
        dispatchTrace := dispatchedPrefix
        transferState := TransferState.connected
        callStatus := CallStatus.transferred
        fellBack := false
        fallbackNotification := none }
    else
      match remaining with
      | r + 2 =>
        let rest := runTransferAttempts data timestamp transcriptStr dispatchId draws
          currentAttempt (r + 1)
        { rest with dispatchTrace := dispatchedPrefix ++ rest.dispatchTrace }
      | _ =>
        { attempts := currentAttempt
          dispatchTrace := dispatchedPrefix ++ [DispatchStatus.dispatched]
          transferState := TransferState.failed
          callStatus := CallStatus.transferring
          fellBack := true
          fallbackNotification := some (IN.dispatchEmergencyServices
            (toFallbackDispatchData data timestamp transcriptStr) dispatchId
            d.fallbackTransferDelayDraw d.fallbackTransferDraw
            d.fallbackSidDraw d.fallbackArrivalDraw) }

/-- A transfer session started by the enhanced hook with
`transferStatus.attempts = 0` (as `startCall` resets it). -/
def runSession (data : EmergencyData)
    (timestamp transcriptStr dispatchId : String) (draws : ℕ → AttemptDraws) :
    SessionResult :=
  runTransferAttempts data timestamp transcriptStr dispatchId draws 0 3

end EnhancedHook

/-! ### Concrete inputs used by witnesses and counterexamples -/

/-- A representative dispatch input: a medical emergency of urgency 3. -/
def medicalSample : EmergencyDispatchData :=
  ⟨"medical", ⟨none, none, "12 MG Road, Bengaluru"⟩, 3,
    none, none, none, none, "2025-01-01T00:00:00Z", none, none⟩

/-- An oracle whose `sendDataToDispatchCenter` promise rejects (US
iteration). -/
def crashedEnv : US.DispatchEnv :=
  ⟨Step.thrown "boom", fun _ => Step.ok (0, 0), 0⟩

/-- An oracle whose `sendDataToDispatchCenter` promise rejects (India
iteration). -/
def inCrashedEnv : IN.DispatchEnv :=
  ⟨Step.thrown "boom", Step.ok (0, 0, "x"), 0⟩

/-- A session that has collected no emergency data yet. -/
def emptyEmergencyData : EnhancedHook.EmergencyData :=
  ⟨none, none, none, none, none, none, none⟩

/-- Complete collected emergency data (type and address present). -/
def completeEmergencyData : EnhancedHook.EmergencyData :=
  ⟨some "medical", some ⟨none, none, "12 MG Road, Bengaluru"⟩, some 3,
    none, none, none, none⟩

/-- Attempt draws in which every random draw is `0`, so every simulated
contact fails its threshold test. -/
def failingDraws : ℕ → EnhancedHook.AttemptDraws :=
  fun _ => ⟨0, 0, "s", 0, 0, 0, 0, 0, "s", 0⟩

/-- The `simulate`-prefixed mock network operations defined in the
repository source: `simulateEmergencyCall` (US dispatch service),
`simulateTwilioTransferAPI` (India dispatch service),
`simulateTwilioTransfer` (base hook) and `simulateEmergencyServiceCall`
(enhanced hook).  No other `simulate*` function occurs in the source. -/
def simulatedNetworkOperationNames : List String :=
  ["simulateEmergencyCall", "simulateTwilioTransferAPI",
   "simulateTwilioTransfer", "simulateEmergencyServiceCall"]

/-! ### Helper lemmas -/

/-- A string with a nonempty prefix is nonempty. -/
theorem String.append_ne_empty_left {s t : String} (h : s ≠ "") : s ++ t ≠ "" := by
  intro hc
  apply h
  have hd := congrArg String.data hc
  simp only [String.data_append] at hd
  rcases List.append_eq_nil.mp hd with ⟨h1, _⟩
  cases s
  simp_all

/-- Every branch of the base hook's `switch (error.error.type)` yields a
nonempty message. -/
theorem switchMessage_ne_empty (t : String) (msg : Option String) :
    BaseHook.switchMessage t msg ≠ "" := by
  unfold BaseHook.switchMessage
  split_ifs <;> first
    | decide
    | exact String.append_ne_empty_left
        (String.append_ne_empty_left (String.append_ne_empty_left (by decide)))

/-- A truthy optional string is a nonempty string. -/
theorem truthy_getD_ne_empty {o : Option String} (h : BaseHook.truthy o = true) :
    o.getD "" ≠ "" := by
  rcases o with _ | s
  · simp [BaseHook.truthy] at h
  · simp only [BaseHook.truthy, decide_eq_true_eq] at h
    simpa using h

/-- The `error.error` part of the message computation is nonempty. -/
theorem innerErrorMessage_ne_empty (inner : BaseHook.VapiInnerError) :
    BaseHook.innerErrorMessage inner ≠ "" := by
  unfold BaseHook.innerErrorMessage
  split_ifs with h1 h2
  · exact truthy_getD_ne_empty h1
  · exact switchMessage_ne_empty _ _
  · decide

/-- The base hook's `error` handler always computes a nonempty message. -/
theorem computeErrorMessage_ne_empty (e : Option BaseHook.VapiError) :
    BaseHook.computeErrorMessage e ≠ "" := by
  rcases e with _ | err
  · decide
  · show (if BaseHook.truthy err.errorMsg then err.errorMsg.getD ""
      else
        match err.error with
        | some inner => BaseHook.innerErrorMessage inner
        | none => "Call ended unexpectedly") ≠ ""
    split_ifs with h1
    · exact truthy_getD_ne_empty h1
    · rcases err.error with _ | inner
      · decide
      · exact innerErrorMessage_ne_empty inner

/-! ### Claim theorems -/

/-- Claim C9 (confirmed): for every dispatch input and every random draw,
`calculateEstimatedArrival` returns an integer of at least 3 minutes in the
US iteration of the service and at least 5 minutes in the India iteration,
regardless of emergency type and urgency level. -/
theorem arrival_estimate_lower_bounds (data : EmergencyDispatchData) (draw : ℚ) :
    3 ≤ US.calculateEstimatedArrival data draw ∧
    5 ≤ IN.calculateEstimatedArrival data draw := by
  constructor
  · unfold US.calculateEstimatedArrival
    exact le_max_left _ _
  · unfold IN.calculateEstimatedArrival
    exact le_max_left _ _

/-- Claim C7 (confirmed): the base hook mirrors SDK callback events into UI
state: `call-start` sets `callStatus` to `'connected'`, activates the
session and clears the error message; `call-end` sets `callStatus` to
`'ended'` and deactivates the session; `error` ends the call, deactivates
the session and records a nonempty error message. -/
theorem hook_mirrors_sdk_events (st : BaseHook.HookState)
    (e : Option BaseHook.VapiError) :
    (BaseHook.onCallStart st).callStatus = CallStatus.connected ∧
    (BaseHook.onCallStart st).isSessionActive = true ∧
    (BaseHook.onCallStart st).vapiErrorMessage = "" ∧
    (BaseHook.onCallEnd st).callStatus = CallStatus.ended ∧
    (BaseHook.onCallEnd st).isSessionActive = false ∧
    (BaseHook.onError e st).callStatus = CallStatus.ended ∧
    (BaseHook.onError e st).isSessionActive = false ∧
    (BaseHook.onError e st).vapiErrorMessage ≠ "" := by
  refine ⟨rfl, rfl, rfl, rfl, rfl, rfl, rfl, ?_⟩
  exact computeErrorMessage_ne_empty e

/-- Claim C5 counterexample: the spec names `simulateVapiCall` as one of the
simulated network operations, but no function of that name exists in the
program; the third simulated operation is `simulateTwilioTransferAPI`. -/
theorem simulateVapiCall_not_in_program :
    ¬ ("simulateVapiCall" ∈ simulatedNetworkOperationNames) := by
  decide

/-- Claim C5 (corrected): the simulated network operations that do exist —
`simulateEmergencyServiceCall`, `simulateTwilioTransfer`,
`simulateTwilioTransferAPI` and `simulateEmergencyCall` — are each a local
timer delay followed by a single random draw against a fixed threshold
(0.05, 0.1, 0.15 and 0.05 respectively) that alone determines success. -/
theorem simulated_operations_are_delay_plus_draw :
    (∀ d1 d2 : ℚ, ∀ cid : String,
      (EnhancedHook.simulateEmergencyServiceCall d1 d2 cid).delayMs = 2000 + d1 * 3000 ∧
      ((EnhancedHook.simulateEmergencyServiceCall d1 d2 cid).success = true ↔ 5 / 100 < d2)) ∧
    (∀ d : ℚ,
      (BaseHook.simulateTwilioTransfer d).delayMs = 2000 ∧
      ((BaseHook.simulateTwilioTransfer d).success = true ↔ 1 / 10 < d)) ∧
    (∀ d1 d2 : ℚ, ∀ sid : String,
      (IN.simulateTwilioTransferAPI d1 d2 sid).delayMs = 1500 + d1 * 2000 ∧
      ((IN.simulateTwilioTransferAPI d1 d2 sid).success = true ↔ 15 / 100 < d2)) ∧
    (∀ d1 d2 : ℚ,
      (US.simulateEmergencyCall d1 d2).delayMs = 1000 + d1 * 2000 ∧
      ((US.simulateEmergencyCall d1 d2).success = true ↔ 5 / 100 < d2)) := by
  refine ⟨fun d1 d2 cid => ⟨rfl, ?_⟩, fun d => ⟨rfl, ?_⟩,
    fun d1 d2 sid => ⟨rfl, ?_⟩, fun d1 d2 => ⟨rfl, ?_⟩⟩ <;>
    simp [EnhancedHook.simulateEmergencyServiceCall, BaseHook.simulateTwilioTransfer,
      IN.simulateTwilioTransferAPI, US.simulateEmergencyCall]

/-- Under the normally-resolving oracle, the oracle-mediated India dispatch
agrees definitionally with the draw-level model used for claims C1 and
C10. -/
theorem in_dispatchEnv_pure_eq (data : EmergencyDispatchData)
    (dispatchId : String) (d1 d2 : ℚ) (sid : String) (ad : ℚ) :
    IN.dispatchEmergencyServicesEnv data dispatchId (IN.pureEnv d1 d2 sid ad) =
      IN.dispatchEmergencyServices data dispatchId d1 d2 sid ad := rfl

/-- Claim C8 (confirmed): neither iteration of `dispatchEmergencyServices`
propagates an exception — whenever any awaited step of the `try` block
rejects, the `catch` clause returns a response with `success` false,
`estimatedArrival` 0, the `dispatchId` generated at entry, the
`servicesContacted` accumulated so far, and an errors list carrying the
system error (the India catch additionally reports `transferInitiated`
false and no call SID). -/
theorem dispatch_catches_internal_throw (data : EmergencyDispatchData)
    (dispatchId : String) :
    (∀ (env : US.DispatchEnv) (msg : String) (acc : List String),
      US.runDispatchBody data env = Except.error (msg, acc) →
      US.dispatchEmergencyServices data dispatchId env =
        { success := false
          dispatchId := dispatchId
          servicesContacted := acc
          estimatedArrival := 0
          errors := some ["System error: " ++ msg] }) ∧
    (∀ (env : IN.DispatchEnv) (msg : String) (acc : List String),
      IN.runDispatchBody data env = Except.error (msg, acc) →
      IN.dispatchEmergencyServicesEnv data dispatchId env =
        { success := false
          dispatchId := dispatchId
          servicesContacted := acc
          estimatedArrival := 0
          transferInitiated := false
          twilioCallSid := none
          errors := some ["System error: " ++ msg] }) := by
  constructor
  · intro env msg acc h
    unfold US.dispatchEmergencyServices
    rw [h]
  · intro env msg acc h
    unfold IN.dispatchEmergencyServicesEnv
    rw [h]

/-- Witness for claim C8: oracles whose dispatch-center send rejects with
`boom` make both iterations of `dispatchEmergencyServices` return their
catch-clause responses. -/
theorem dispatch_catches_internal_throw_witness :
    US.dispatchEmergencyServices medicalSample "RESCUE-1" crashedEnv =
      { success := false
        dispatchId := "RESCUE-1"
        servicesContacted := []
        estimatedArrival := 0
        errors := some ["System error: boom"] } ∧
    IN.dispatchEmergencyServicesEnv medicalSample "RESCUE-1" inCrashedEnv =
      { success := false
        dispatchId := "RESCUE-1"
        servicesContacted := []
        estimatedArrival := 0
        transferInitiated := false
        twilioCallSid := none
        errors := some ["System error: boom"] } :=
  ⟨(dispatch_catches_internal_throw medicalSample "RESCUE-1").1 crashedEnv
      "boom" [] rfl,
    (dispatch_catches_internal_throw medicalSample "RESCUE-1").2 inCrashedEnv
      "boom" [] rfl⟩

theorem pureEnv_callDraws (cd : ℕ → ℚ × ℚ) (ad : ℚ) (i : ℕ) :
    (US.pureEnv cd ad).callDraws i = Step.ok (cd i) := rfl

theorem makeEmergencyCall_eq (c : EmergencyContact) (d1 d2 : ℚ) :
    US.makeEmergencyCall c d1 d2 = decide (5 / 100 < d2) := rfl

/-- With a normally-resolving oracle the contact loop always completes. -/
theorem contactLoop_pure_ok (data : EmergencyDispatchData) (cd : ℕ → ℚ × ℚ) (ad : ℚ) :
    ∀ (l : List EmergencyContact) (i : ℕ) (c e : List String),
      ∃ c2 e2, US.contactLoop data (US.pureEnv cd ad) l i c e = Except.ok (c2, e2) := by
  intro l
  induction l with
  | nil =>
    intro i c e
    exact ⟨c, e, rfl⟩
  | cons s rest ih =>
    intro i c e
    simp only [US.contactLoop, pureEnv_callDraws]
    split_ifs <;> first
      | exact ⟨_, _, rfl⟩
      | exact ih (i + 1) _ _

/-- Starting from an empty accumulator, the contact loop returns an empty
`servicesContacted` exactly when every call draw fails its threshold. -/
theorem contactLoop_pure_empty_iff (data : EmergencyDispatchData) (cd : ℕ → ℚ × ℚ)
    (ad : ℚ) :
    ∀ (l : List EmergencyContact) (i : ℕ) (e c2 e2 : List String),
      US.contactLoop data (US.pureEnv cd ad) l i [] e = Except.ok (c2, e2) →
      (c2 = [] ↔ ∀ j < l.length, (cd (i + j)).2 ≤ 5 / 100) := by
  intro l
  induction l with
  | nil =>
    intro i e c2 e2 h
    simp only [US.contactLoop, Except.ok.injEq, Prod.mk.injEq] at h
    obtain ⟨h1, _⟩ := h
    subst h1
    simp
  | cons s rest ih =>
    intro i e c2 e2 h
    simp only [US.contactLoop, pureEnv_callDraws, makeEmergencyCall_eq] at h
    by_cases hd : 5 / 100 < (cd i).2
    · simp only [hd, decide_True, eq_self_iff_true, if_true, List.nil_append,
        List.length_cons, List.length_nil] at h
      rw [if_neg (fun hc => absurd hc.2 (by norm_num))] at h
      rw [if_pos (by norm_num)] at h
      simp only [Except.ok.injEq, Prod.mk.injEq] at h
      obtain ⟨h1, _⟩ := h
      refine iff_of_false (fun hc => by simp [← h1] at hc) (fun hall => ?_)
      exact absurd hd (not_lt.mpr (by simpa using hall 0 (by simp)))
    · simp only [hd, decide_False, Bool.false_eq_true, if_false, List.length_nil] at h
      rw [if_neg (fun hc => absurd hc.2 (by norm_num))] at h
      rw [if_neg (by norm_num)] at h
      have hrec := ih (i + 1) _ c2 e2 h
      rw [hrec]
      constructor
      · intro hall
        intro j hj
        rcases j with _ | j
        · simpa using not_lt.mp hd
        · have hj2 : j < rest.length := by simpa using hj
          have := hall j hj2
          have harith : i + 1 + j = i + (j + 1) := by omega
          rw [harith] at this
          exact this
      · intro hall j hj
        have := hall (j + 1) (by simpa using hj)
        have harith : i + (j + 1) = i + 1 + j := by omega
        rw [harith] at this
        exact this

/-- Every name the contact loop adds comes from the contact list, in
order. -/
theorem contactLoop_sublist (data : EmergencyDispatchData) (env : US.DispatchEnv) :
    ∀ (l : List EmergencyContact) (i : ℕ) (c e c2 e2 : List String),
      US.contactLoop data env l i c e = Except.ok (c2, e2) →
      List.Sublist c2 (c ++ l.map EmergencyContact.service) := by
  intro l
  induction l with
  | nil =>
    intro i c e c2 e2 h
    simp only [US.contactLoop, Except.ok.injEq, Prod.mk.injEq] at h
    obtain ⟨h1, _⟩ := h
    subst h1
    simp
  | cons s rest ih =>
    intro i c e c2 e2 h
    simp only [US.contactLoop] at h
    cases henv : env.callDraws i with
    | thrown m =>
      rw [henv] at h
      cases h
    | ok dp =>
      rw [henv] at h
      simp only at h
      by_cases hs : US.makeEmergencyCall s dp.1 dp.2 = true
      · rw [if_pos hs, if_pos hs] at h
        split_ifs at h with h1 h2
        · simp only [Except.ok.injEq, Prod.mk.injEq] at h
          obtain ⟨h3, _⟩ := h
          subst h3
          simp only [List.map_cons]
          exact (List.append_sublist_append_left c).mpr
            (List.cons_sublist_cons.mpr (List.nil_sublist _))
        · simp only [Except.ok.injEq, Prod.mk.injEq] at h
          obtain ⟨h3, _⟩ := h
          subst h3
          simp only [List.map_cons]
          exact (List.append_sublist_append_left c).mpr
            (List.cons_sublist_cons.mpr (List.nil_sublist _))
        · have := ih (i + 1) (c ++ [s.service]) _ c2 e2 h
          simpa [List.append_assoc] using this
      · rw [if_neg hs, if_neg hs] at h
        split_ifs at h with h1 h2
        · simp only [Except.ok.injEq, Prod.mk.injEq] at h
          obtain ⟨h3, _⟩ := h
          subst h3
          exact List.sublist_append_left c _
        · simp only [Except.ok.injEq, Prod.mk.injEq] at h
          obtain ⟨h3, _⟩ := h
          subst h3
          exact List.sublist_append_left c _
        · have := ih (i + 1) c _ c2 e2 h
          refine this.trans ?_
          simp only [List.map_cons]
          exact (List.append_sublist_append_left c).mpr (List.sublist_cons_self _ _)

/-- Under the normally-resolving oracle, the `try` block reduces to the
contact loop's outcome. -/
theorem runDispatchBody_pure (data : EmergencyDispatchData) (cd : ℕ → ℚ × ℚ)
    (ad : ℚ) :
    US.runDispatchBody data (US.pureEnv cd ad) =
      match US.contactLoop data (US.pureEnv cd ad)
          (US.getRelevantServices data.emergencyType data.urgencyLevel) 0 [] [] with
      | Except.error (e, contacted) => Except.error (e, contacted)
      | Except.ok (contacted, errs) =>
        Except.ok (contacted, errs, US.calculateEstimatedArrival data ad) := rfl

/-- The non-exception response of the US dispatch, given the contact loop's
outcome. -/
theorem us_dispatch_pure_eq (data : EmergencyDispatchData) (dispatchId : String)
    (cd : ℕ → ℚ × ℚ) (ad : ℚ) (c2 e2 : List String)
    (h : US.contactLoop data (US.pureEnv cd ad)
        (US.getRelevantServices data.emergencyType data.urgencyLevel) 0 [] [] =
      Except.ok (c2, e2)) :
    US.dispatchEmergencyServices data dispatchId (US.pureEnv cd ad) =
      { success := decide (0 < c2.length)
        dispatchId := dispatchId
        servicesContacted := c2
        estimatedArrival := US.calculateEstimatedArrival data ad
        errors := if 0 < e2.length then some e2 else none } := by
  unfold US.dispatchEmergencyServices
  rw [runDispatchBody_pure, h]

/-- Claim C1 (amended, US iteration): the `success` field of the US
`dispatchEmergencyServices` is `true` exactly when at least one simulated
outbound contact's random draw exceeded the fixed `0.05` failure threshold,
and `false` when every contact's draw fell at or below it.  (The draws with
index below the relevant-services count are exactly those the loop can
consume; the loop stops early precisely after its first success, so an
in-range successful draw is always reached.) -/
theorem us_dispatch_success_iff_draw_exceeds_threshold
    (data : EmergencyDispatchData) (dispatchId : String) (cd : ℕ → ℚ × ℚ)
    (ad : ℚ) :
    (US.dispatchEmergencyServices data dispatchId (US.pureEnv cd ad)).success = true ↔
      ∃ j < (US.getRelevantServices data.emergencyType data.urgencyLevel).length,
        5 / 100 < (cd j).2 := by
  obtain ⟨c2, e2, h⟩ := contactLoop_pure_ok data cd ad
    (US.getRelevantServices data.emergencyType data.urgencyLevel) 0 [] []
  rw [us_dispatch_pure_eq data dispatchId cd ad c2 e2 h]
  have hiff := contactLoop_pure_empty_iff data cd ad
    (US.getRelevantServices data.emergencyType data.urgencyLevel) 0 [] c2 e2 h
  simp only [zero_add] at hiff
  simp only [decide_eq_true_eq]
  constructor
  · intro hsucc
    have hne : c2 ≠ [] := by
      intro hnil
      rw [hnil] at hsucc
      simp at hsucc
    have hnall : ¬ ∀ j < (US.getRelevantServices data.emergencyType
        data.urgencyLevel).length, (cd j).2 ≤ 5 / 100 :=
      fun hall => hne (hiff.mpr hall)
    push_neg at hnall
    exact hnall
  · rintro ⟨j, hj, hgt⟩
    have hne : c2 ≠ [] := by
      intro hnil
      exact absurd hgt (not_lt.mpr (hiff.mp hnil j hj))
    exact List.length_pos.mpr hne

/-- Claim C1 counterexample: in the India iteration of
`dispatchEmergencyServices` (the other source the claim points at), the
Twilio transfer draw `0` falls below its `0.15` threshold — and it is the
only random draw made for a simulated outbound contact on that path — yet
the returned `success` field is `true`. -/
theorem in_dispatch_success_despite_failed_draw :
    (IN.simulateTwilioTransferAPI 0 0 "x").success = false ∧
    (IN.dispatchEmergencyServices medicalSample "RESCUE-IN-1" 0 0 "x"
        (1 / 2)).success = true := by
  constructor
  · norm_num [IN.simulateTwilioTransferAPI]
  · norm_num [IN.dispatchEmergencyServices, IN.initiateTwilioCallTransfer,
      IN.simulateTwilioTransferAPI, IN.getRelevantServices, IN.emergencyContacts,
      medicalSample, priorityOrder] <;> decide

/-- Claim C6 (confirmed): every entry of `servicesContacted` in the US
dispatch response is the name of an emergency-contact-table row whose
capabilities include the emergency type or `'other'`, or whose priority is 1
when the urgency level is at least 4; the entries follow the candidate order,
which is ascending by priority; and `estimatedArrival` is exactly the value
computed by `calculateEstimatedArrival`. -/
theorem us_dispatch_response_from_relevant_services
    (data : EmergencyDispatchData) (dispatchId : String) (cd : ℕ → ℚ × ℚ)
    (ad : ℚ) :
    (∀ name ∈ (US.dispatchEmergencyServices data dispatchId
        (US.pureEnv cd ad)).servicesContacted,
        ∃ contact ∈ US.emergencyContacts, contact.service = name ∧
          (data.emergencyType ∈ contact.capabilities ∨
            "other" ∈ contact.capabilities ∨
            (4 ≤ data.urgencyLevel ∧ contact.priority = 1))) ∧
    List.Sublist
      (US.dispatchEmergencyServices data dispatchId
        (US.pureEnv cd ad)).servicesContacted
      ((US.getRelevantServices data.emergencyType data.urgencyLevel).map
        EmergencyContact.service) ∧
    List.Sorted priorityOrder
      (US.getRelevantServices data.emergencyType data.urgencyLevel) ∧
    (US.dispatchEmergencyServices data dispatchId
        (US.pureEnv cd ad)).estimatedArrival =
      US.calculateEstimatedArrival data ad := by
  obtain ⟨c2, e2, h⟩ := contactLoop_pure_ok data cd ad
    (US.getRelevantServices data.emergencyType data.urgencyLevel) 0 [] []
  rw [us_dispatch_pure_eq data dispatchId cd ad c2 e2 h]
  have hsub := contactLoop_sublist data (US.pureEnv cd ad)
    (US.getRelevantServices data.emergencyType data.urgencyLevel) 0 [] [] c2 e2 h
  simp only [List.nil_append] at hsub
  refine ⟨?_, hsub, List.sorted_insertionSort priorityOrder _, rfl⟩
  intro name hname
  have hmap := hsub.subset hname
  obtain ⟨contact, hct, hcs⟩ := List.mem_map.mp hmap
  rw [US.getRelevantServices, List.mem_insertionSort, List.mem_filter] at hct
  obtain ⟨hmem, hp⟩ := hct
  refine ⟨contact, hmem, hcs, ?_⟩
  rw [Bool.or_eq_true, Bool.or_eq_true] at hp
  cases hp with
  | inl hp1 =>
    cases hp1 with
    | inl h1 => exact Or.inl (List.elem_iff.mp h1)
    | inr h2 => exact Or.inr (Or.inl (List.elem_iff.mp h2))
  | inr h3 =>
    rw [Bool.and_eq_true] at h3
    exact Or.inr (Or.inr ⟨of_decide_eq_true h3.1, eq_of_beq h3.2⟩)

/-- Witness for claim C6: a concrete instantiation of the response-shape
theorem. -/
theorem us_dispatch_response_from_relevant_services_witness :
    (US.dispatchEmergencyServices medicalSample "RESCUE-2"
      (US.pureEnv (fun _ => (0, 1)) 0)).estimatedArrival =
      US.calculateEstimatedArrival medicalSample 0 :=
  (us_dispatch_response_from_relevant_services medicalSample "RESCUE-2"
    (fun _ => (0, 1)) 0).2.2.2

/-- The priority-1 India contact always passes the capability filter through
its `'other'` capability, whatever the emergency type and urgency. -/
theorem in_relevant_head_mem (t : String) (u : ℚ) :
    (⟨"Emergency Services (Direct Transfer)", "+919714766855", 1,
      ["medical", "fire", "crime", "other"]⟩ : EmergencyContact) ∈
      IN.getRelevantServices t u := by
  unfold IN.getRelevantServices
  rw [List.mem_insertionSort]
  refine List.mem_filter.mpr ⟨?_, ?_⟩
  · simp [IN.emergencyContacts]
  · simp

/-- The dedup-append fold of the India dispatch never shrinks its
accumulator. -/
theorem foldl_addService_length_le :
    ∀ (l : List EmergencyContact) (acc : List String),
      acc.length ≤ (l.foldl (fun acc s =>
        if acc.contains s.service then acc else acc ++ [s.service]) acc).length := by
  intro l
  induction l with
  | nil => intro acc; simp
  | cons s rest ih =>
    intro acc
    rw [List.foldl_cons]
    refine le_trans ?_ (ih _)
    split_ifs
    · exact le_refl _
    · simp

/-- The dedup-append fold yields a nonempty list whenever the accumulator or
the list is nonempty. -/
theorem foldl_addService_ne_nil (l : List EmergencyContact) (acc : List String)
    (h : acc = [] → l ≠ []) :
    l.foldl (fun acc s => if acc.contains s.service then acc else acc ++ [s.service])
      acc ≠ [] := by
  rcases hacc : acc with _ | ⟨a, as⟩
  · subst hacc
    rcases hl : l with _ | ⟨s, rest⟩
    · exact absurd hl (h rfl)
    · rw [List.foldl_cons]
      have hc : (([] : List String).contains s.service) = false := rfl
      rw [hc]
      simp only [Bool.false_eq_true, if_false, List.nil_append]
      have hle := foldl_addService_length_le rest [s.service]
      intro hnil
      rw [hnil] at hle
      simp at hle
  · subst hacc
    have hle := foldl_addService_length_le l (a :: as)
    intro hnil
    rw [hnil] at hle
    simp at hle

theorem in_dispatch_servicesContacted_eq (data : EmergencyDispatchData)
    (dispatchId : String) (d1 d2 : ℚ) (sid : String) (ad : ℚ) :
    (IN.dispatchEmergencyServices data dispatchId d1 d2 sid ad).servicesContacted =
      ((IN.getRelevantServices data.emergencyType data.urgencyLevel).take 2).foldl
        (fun acc s => if acc.contains s.service then acc else acc ++ [s.service])
        (if (IN.simulateTwilioTransferAPI d1 d2 sid).success then
          ["Emergency Services (Direct Transfer)"] else []) := rfl

theorem in_dispatch_success_eq (data : EmergencyDispatchData)
    (dispatchId : String) (d1 d2 : ℚ) (sid : String) (ad : ℚ) :
    (IN.dispatchEmergencyServices data dispatchId d1 d2 sid ad).success =
      ((IN.simulateTwilioTransferAPI d1 d2 sid).success ||
        decide (0 < (IN.dispatchEmergencyServices data dispatchId d1 d2 sid
          ad).servicesContacted.length)) := rfl

/-- Claim C10 (confirmed): in the India iteration, for every input and on
every (non-exception) path, `dispatchEmergencyServices` reports
`success = true` with a nonempty `servicesContacted`, even when the Twilio
draw fails: up to two backup services are unconditionally appended, and the
filter always admits the priority-1 contact through its `'other'`
capability. -/
theorem in_dispatch_always_succeeds (data : EmergencyDispatchData)
    (dispatchId : String) (d1 d2 : ℚ) (sid : String) (ad : ℚ) :
    (IN.dispatchEmergencyServices data dispatchId d1 d2 sid ad).success = true ∧
    (IN.dispatchEmergencyServices data dispatchId d1 d2 sid
      ad).servicesContacted ≠ [] := by
  have hrel : IN.getRelevantServices data.emergencyType data.urgencyLevel ≠ [] :=
    List.ne_nil_of_mem (in_relevant_head_mem data.emergencyType data.urgencyLevel)
  have htake : (IN.getRelevantServices data.emergencyType
      data.urgencyLevel).take 2 ≠ [] := by
    obtain ⟨s, rest, hsr⟩ := List.exists_cons_of_ne_nil hrel
    rw [hsr]
    simp
  have hne : (IN.dispatchEmergencyServices data dispatchId d1 d2 sid
      ad).servicesContacted ≠ [] := by
    rw [in_dispatch_servicesContacted_eq]
    exact foldl_addService_ne_nil _ _ (fun _ => htake)
  refine ⟨?_, hne⟩
  rw [in_dispatch_success_eq]
  have hlen : 0 < (IN.dispatchEmergencyServices data dispatchId d1 d2 sid
      ad).servicesContacted.length := List.length_pos.mpr hne
  simp [hlen]

/-- Unfolding equation for an attempt with no retry budget left
(`remaining = 0`, unreachable from `runSession` but part of the guard's
complement). -/
theorem runTransferAttempts_zero (data : EnhancedHook.EmergencyData)
    (ts tr id : String) (draws : ℕ → EnhancedHook.AttemptDraws) (prev : ℕ) :
    EnhancedHook.runTransferAttempts data ts tr id draws prev 0 =
      if 5 / 100 < (draws (prev + 1)).callDraw then
        { attempts := prev + 1
          dispatchTrace := EnhancedHook.attemptDispatchPrefix data ts tr id
            (draws (prev + 1))
          transferState := EnhancedHook.TransferState.connected
          callStatus := CallStatus.transferred
          fellBack := false
          fallbackNotification := none }
      else
        { attempts := prev + 1
          dispatchTrace := EnhancedHook.attemptDispatchPrefix data ts tr id
            (draws (prev + 1)) ++ [DispatchStatus.dispatched]
          transferState := EnhancedHook.TransferState.failed
          callStatus := CallStatus.transferring
          fellBack := true
          fallbackNotification := some (IN.dispatchEmergencyServices
            (EnhancedHook.toFallbackDispatchData data ts tr) id
            (draws (prev + 1)).fallbackTransferDelayDraw
            (draws (prev + 1)).fallbackTransferDraw
            (draws (prev + 1)).fallbackSidDraw
            (draws (prev + 1)).fallbackArrivalDraw) } := rfl

/-- Unfolding equation for the final allowed attempt (`remaining = 1`, the
code's `attempt < 3` guard fails): on draw failure the fallback fires. -/
theorem runTransferAttempts_one (data : EnhancedHook.EmergencyData)
    (ts tr id : String) (draws : ℕ → EnhancedHook.AttemptDraws) (prev : ℕ) :
    EnhancedHook.runTransferAttempts data ts tr id draws prev 1 =
      if 5 / 100 < (draws (prev + 1)).callDraw then
        { attempts := prev + 1
          dispatchTrace := EnhancedHook.attemptDispatchPrefix data ts tr id
            (draws (prev + 1))
          transferState := EnhancedHook.TransferState.connected
          callStatus := CallStatus.transferred
          fellBack := false
          fallbackNotification := none }
      else
        { attempts := prev + 1
          dispatchTrace := EnhancedHook.attemptDispatchPrefix data ts tr id
            (draws (prev + 1)) ++ [DispatchStatus.dispatched]
          transferState := EnhancedHook.TransferState.failed
          callStatus := CallStatus.transferring
          fellBack := true
          fallbackNotification := some (IN.dispatchEmergencyServices
            (EnhancedHook.toFallbackDispatchData data ts tr) id
            (draws (prev + 1)).fallbackTransferDelayDraw
            (draws (prev + 1)).fallbackTransferDraw
            (draws (prev + 1)).fallbackSidDraw
            (draws (prev + 1)).fallbackArrivalDraw) } := rfl

/-- Unfolding equation for an attempt with retry budget left
(`remaining ≥ 2`, the code's `attempt < 3` guard holds): on draw failure the
next attempt runs. -/
theorem runTransferAttempts_retry (data : EnhancedHook.EmergencyData)
    (ts tr id : String) (draws : ℕ → EnhancedHook.AttemptDraws) (prev r : ℕ) :
    EnhancedHook.runTransferAttempts data ts tr id draws prev (r + 1 + 1) =
      if 5 / 100 < (draws (prev + 1)).callDraw then
        { attempts := prev + 1
          dispatchTrace := EnhancedHook.attemptDispatchPrefix data ts tr id
            (draws (prev + 1))
          transferState := EnhancedHook.TransferState.connected
          callStatus := CallStatus.transferred
          fellBack := false
          fallbackNotification := none }
      else
        let rest := EnhancedHook.runTransferAttempts data ts tr id draws
          (prev + 1) (r + 1)
        let pfx := EnhancedHook.attemptDispatchPrefix data ts tr id (draws (prev + 1))
        { rest with dispatchTrace := pfx ++ rest.dispatchTrace } := rfl

/-- With complete data, step 2's trace contribution starts with
`'dispatching'`. -/
theorem attemptDispatchPrefix_complete (data : EnhancedHook.EmergencyData)
    (ts tr id : String) (d : EnhancedHook.AttemptDraws)
    (hc : EnhancedHook.dataComplete data = true) :
    ∃ tail, EnhancedHook.attemptDispatchPrefix data ts tr id d =
      DispatchStatus.dispatching :: tail := by
  unfold EnhancedHook.attemptDispatchPrefix
  rw [hc, if_pos rfl]
  exact ⟨_, rfl⟩

/-- Claim C2 (amended): in the base hook, `initiateCallTransfer` sets
`dispatchStatus` to `'dispatching'` unconditionally at entry, so the
terminal `'dispatched'`/`'failed'` values are always preceded by
`'dispatching'`; in the enhanced hook the same holds whenever the session's
collected data has an emergency type and an address.  (When the data is
incomplete, the enhanced hook's post-third-failure fallback violates the
claim — see the counterexample.) -/
theorem dispatch_status_passes_through_dispatching :
    (∀ dataComplete dispatchSuccess transferSuccess : Bool,
      ∃ rest, BaseHook.initiateCallTransferTrace dataComplete dispatchSuccess
        transferSuccess = DispatchStatus.dispatching :: rest) ∧
    (∀ (data : EnhancedHook.EmergencyData)
        (timestamp transcriptStr dispatchId : String)
        (draws : ℕ → EnhancedHook.AttemptDraws),
      EnhancedHook.dataComplete data = true →
      ∃ rest, (EnhancedHook.runSession data timestamp transcriptStr dispatchId
        draws).dispatchTrace = DispatchStatus.dispatching :: rest) := by
  constructor
  · intro dc ds ts
    exact ⟨_, rfl⟩
  · intro data ts tr id draws hc
    obtain ⟨tail, htail⟩ := attemptDispatchPrefix_complete data ts tr id
      (draws (0 + 1)) hc
    rw [EnhancedHook.runSession, show (3 : ℕ) = 1 + 1 + 1 from rfl,
      runTransferAttempts_retry]
    split_ifs with h
    · exact ⟨tail, htail⟩
    · refine ⟨tail ++ (EnhancedHook.runTransferAttempts data ts tr id draws
        (0 + 1) (1 + 1)).dispatchTrace, ?_⟩
      show EnhancedHook.attemptDispatchPrefix data ts tr id (draws (0 + 1)) ++
          (EnhancedHook.runTransferAttempts data ts tr id draws (0 + 1)
            (1 + 1)).dispatchTrace =
        DispatchStatus.dispatching :: (tail ++ (EnhancedHook.runTransferAttempts
          data ts tr id draws (0 + 1) (1 + 1)).dispatchTrace)
      rw [htail, List.cons_append]

/-- Claim C2 counterexample: with no emergency data collected and three
failing call draws, the enhanced hook's after-third-failure fallback sets
`dispatchStatus` straight from `'idle'` to `'dispatched'`: the session's
dispatch-status trace is exactly `[dispatched]` and `'dispatching'` never
occurred. -/
theorem session_reaches_dispatched_without_dispatching :
    (EnhancedHook.runSession emptyEmergencyData "t" "tr" "id"
        failingDraws).dispatchTrace = [DispatchStatus.dispatched] ∧
    DispatchStatus.dispatching ∉
      (EnhancedHook.runSession emptyEmergencyData "t" "tr" "id"
        failingDraws).dispatchTrace := by
  have h : (EnhancedHook.runSession emptyEmergencyData "t" "tr" "id"
      failingDraws).dispatchTrace = [DispatchStatus.dispatched] := by
    norm_num [EnhancedHook.runSession, EnhancedHook.runTransferAttempts,
      EnhancedHook.attemptDispatchPrefix, EnhancedHook.dataComplete,
      emptyEmergencyData, failingDraws]
  refine ⟨h, ?_⟩
  rw [h]
  decide

/-- Witness for claim C2: with complete collected data the enhanced hook's
trace starts with `'dispatching'`. -/
theorem dispatch_status_passes_through_dispatching_witness :
    ∃ rest, (EnhancedHook.runSession completeEmergencyData "t" "tr" "id"
      failingDraws).dispatchTrace = DispatchStatus.dispatching :: rest :=
  dispatch_status_passes_through_dispatching.2 completeEmergencyData "t" "tr"
    "id" failingDraws (by decide)

/-- The final attempt counter never exceeds the starting counter plus the
remaining attempt budget. -/
theorem runTransferAttempts_attempts_le (data : EnhancedHook.EmergencyData)
    (ts tr id : String) (draws : ℕ → EnhancedHook.AttemptDraws) :
    ∀ (remaining prev : ℕ),
      (EnhancedHook.runTransferAttempts data ts tr id draws prev
        remaining).attempts ≤ prev + max 1 remaining := by
  intro remaining
  induction remaining with
  | zero =>
    intro prev
    rw [runTransferAttempts_zero]
    split_ifs <;> · show prev + 1 ≤ prev + max 1 0; omega
  | succ r ih =>
    intro prev
    cases r with
    | zero =>
      rw [runTransferAttempts_one]
      split_ifs <;> · show prev + 1 ≤ prev + max 1 1; omega
    | succ m =>
      rw [runTransferAttempts_retry]
      split_ifs with hcall
      · show prev + 1 ≤ prev + max 1 (m + 1 + 1)
        omega
      · show (EnhancedHook.runTransferAttempts data ts tr id draws (prev + 1)
            (m + 1)).attempts ≤ prev + max 1 (m + 1 + 1)
        have hrec := ih (prev + 1)
        omega

/-- The fallback fires exactly when every attempt in the budget fails its
call draw. -/
theorem runTransferAttempts_fellBack_iff (data : EnhancedHook.EmergencyData)
    (ts tr id : String) (draws : ℕ → EnhancedHook.AttemptDraws) :
    ∀ (remaining prev : ℕ),
      ((EnhancedHook.runTransferAttempts data ts tr id draws prev
          remaining).fellBack = true ↔
        ∀ j < max 1 remaining, (draws (prev + 1 + j)).callDraw ≤ 5 / 100) := by
  intro remaining
  induction remaining with
  | zero =>
    intro prev
    rw [runTransferAttempts_zero]
    split_ifs with hcall
    · refine iff_of_false (by simp) (fun hall => ?_)
      exact absurd hcall (not_lt.mpr (by simpa using hall 0 (by omega)))
    · refine iff_of_true (by trivial) ?_
      intro j hj
      have hj0 : j = 0 := by omega
      subst hj0
      simpa using not_lt.mp hcall
  | succ r ih =>
    intro prev
    cases r with
    | zero =>
      rw [runTransferAttempts_one]
      split_ifs with hcall
      · refine iff_of_false (by simp) (fun hall => ?_)
        exact absurd hcall (not_lt.mpr (by simpa using hall 0 (by omega)))
      · refine iff_of_true (by trivial) ?_
        intro j hj
        have hj0 : j = 0 := by omega
        subst hj0
        simpa using not_lt.mp hcall
    | succ m =>
      rw [runTransferAttempts_retry]
      split_ifs with hcall
      · refine iff_of_false (by simp) (fun hall => ?_)
        exact absurd hcall (not_lt.mpr (by simpa using hall 0 (by omega)))
      · show ((EnhancedHook.runTransferAttempts data ts tr id draws (prev + 1)
            (m + 1)).fellBack = true ↔
          ∀ j < max 1 (m + 1 + 1), (draws (prev + 1 + j)).callDraw ≤ 5 / 100)
        rw [ih (prev + 1)]
        constructor
        · intro hall j hj
          rcases j with _ | k
          · simpa using not_lt.mp hcall
          · have hk : k < max 1 (m + 1) := by omega
            have hx := hall k hk
            have harith : prev + 1 + 1 + k = prev + 1 + (k + 1) := by omega
            rw [harith] at hx
            exact hx
        · intro hall j hj
          have hx := hall (j + 1) (by omega)
          have harith : prev + 1 + (j + 1) = prev + 1 + 1 + j := by omega
          rw [harith] at hx
          exact hx

/-- When the fallback fires, the final attempt counter equals the starting
counter plus the whole budget. -/
theorem runTransferAttempts_fellBack_attempts (data : EnhancedHook.EmergencyData)
    (ts tr id : String) (draws : ℕ → EnhancedHook.AttemptDraws) :
    ∀ (remaining prev : ℕ),
      (EnhancedHook.runTransferAttempts data ts tr id draws prev
          remaining).fellBack = true →
      (EnhancedHook.runTransferAttempts data ts tr id draws prev
          remaining).attempts = prev + max 1 remaining := by
  intro remaining
  induction remaining with
  | zero =>
    intro prev
    rw [runTransferAttempts_zero]
    split_ifs with hcall
    · intro hf
      simp at hf
    · intro _
      show prev + 1 = prev + max 1 0
      omega
  | succ r ih =>
    intro prev
    cases r with
    | zero =>
      rw [runTransferAttempts_one]
      split_ifs with hcall
      · intro hf
        simp at hf
      · intro _
        show prev + 1 = prev + max 1 1
        omega
    | succ m =>
      rw [runTransferAttempts_retry]
      split_ifs with hcall
      · intro hf
        simp at hf
      · intro hf
        have hrec := ih (prev + 1) hf
        show (EnhancedHook.runTransferAttempts data ts tr id draws (prev + 1)
            (m + 1)).attempts = prev + max 1 (m + 1 + 1)
        omega

/-- When the fallback fires, the mock dispatch service is notified with the
fallback dispatch data built by `handleTransferError`. -/
theorem runTransferAttempts_fallback_notifies (data : EnhancedHook.EmergencyData)
    (ts tr id : String) (draws : ℕ → EnhancedHook.AttemptDraws) :
    ∀ (remaining prev : ℕ),
      (EnhancedHook.runTransferAttempts data ts tr id draws prev
          remaining).fellBack = true →
      (EnhancedHook.runTransferAttempts data ts tr id draws prev
          remaining).fallbackNotification =
        some (IN.dispatchEmergencyServices
          (EnhancedHook.toFallbackDispatchData data ts tr) id
          (draws (prev + max 1 remaining)).fallbackTransferDelayDraw
          (draws (prev + max 1 remaining)).fallbackTransferDraw
          (draws (prev + max 1 remaining)).fallbackSidDraw
          (draws (prev + max 1 remaining)).fallbackArrivalDraw) := by
  intro remaining
  induction remaining with
  | zero =>
    intro prev
    rw [runTransferAttempts_zero]
    split_ifs with hcall
    · intro hf
      simp at hf
    · intro _
      have hmax : prev + max 1 0 = prev + 1 := by omega
      rw [hmax]
  | succ r ih =>
    intro prev
    cases r with
    | zero =>
      rw [runTransferAttempts_one]
      split_ifs with hcall
      · intro hf
        simp at hf
      · intro _
        have hmax : prev + max 1 1 = prev + 1 := by omega
        rw [hmax]
    | succ m =>
      rw [runTransferAttempts_retry]
      split_ifs with hcall
      · intro hf
        simp at hf
      · intro hf
        have hrec := ih (prev + 1) hf
        have hmax : prev + 1 + max 1 (m + 1) = prev + max 1 (m + 1 + 1) := by
          omega
        rw [hmax] at hrec
        show (EnhancedHook.runTransferAttempts data ts tr id draws (prev + 1)
            (m + 1)).fallbackNotification = _
        exact hrec

/-- Claim C3 (confirmed): after a failed transfer attempt the enhanced hook
schedules an automatic retry only while fewer than three attempts have been
made; after the third failed attempt no further retry is scheduled and the
hook falls back to notifying the mock dispatch service, so a session makes
at most three transfer attempts (exactly three when it falls back), and the
fallback fires exactly when all three attempts' draws fail. -/
theorem transfer_retries_capped_at_three (data : EnhancedHook.EmergencyData)
    (ts tr id : String) (draws : ℕ → EnhancedHook.AttemptDraws) :
    (EnhancedHook.runSession data ts tr id draws).attempts ≤ 3 ∧
    ((EnhancedHook.runSession data ts tr id draws).fellBack = true ↔
      ((draws 1).callDraw ≤ 5 / 100 ∧ (draws 2).callDraw ≤ 5 / 100 ∧
        (draws 3).callDraw ≤ 5 / 100)) ∧
    ((EnhancedHook.runSession data ts tr id draws).fellBack = true →
      (EnhancedHook.runSession data ts tr id draws).attempts = 3) ∧
    ((EnhancedHook.runSession data ts tr id draws).fellBack = true →
      (EnhancedHook.runSession data ts tr id draws).fallbackNotification =
        some (IN.dispatchEmergencyServices
          (EnhancedHook.toFallbackDispatchData data ts tr) id
          (draws 3).fallbackTransferDelayDraw (draws 3).fallbackTransferDraw
          (draws 3).fallbackSidDraw (draws 3).fallbackArrivalDraw)) := by
  refine ⟨?_, ?_, ?_, ?_⟩
  · have h := runTransferAttempts_attempts_le data ts tr id draws 3 0
    simpa using h
  · rw [EnhancedHook.runSession,
      runTransferAttempts_fellBack_iff data ts tr id draws 3 0]
    constructor
    · intro hall
      refine ⟨?_, ?_, ?_⟩
      · simpa using hall 0 (by norm_num)
      · simpa using hall 1 (by norm_num)
      · simpa using hall 2 (by norm_num)
    · rintro ⟨h1, h2, h3⟩ j hj
      have hj3 : j < 3 := by simpa using hj
      interval_cases j
      · simpa using h1
      · simpa using h2
      · simpa using h3
  · intro hf
    have h := runTransferAttempts_fellBack_attempts data ts tr id draws 3 0 hf
    simpa using h
  · intro hf
    have h := runTransferAttempts_fallback_notifies data ts tr id draws 3 0 hf
    have hmax : (0 : ℕ) + max 1 3 = 3 := by omega
    rw [hmax] at h
    exact h

/-- Witness for claim C3: with three failing draws the session falls back
after exactly three attempts. -/
theorem transfer_retries_capped_at_three_witness :
    (EnhancedHook.runSession emptyEmergencyData "t" "tr" "id"
        failingDraws).fellBack = true ∧
    (EnhancedHook.runSession emptyEmergencyData "t" "tr" "id"
        failingDraws).attempts = 3 := by
  have h := transfer_retries_capped_at_three emptyEmergencyData "t" "tr" "id"
    failingDraws
  have hf : (EnhancedHook.runSession emptyEmergencyData "t" "tr" "id"
      failingDraws).fellBack = true :=
    h.2.1.mpr ⟨by norm_num [failingDraws], by norm_num [failingDraws],
      by norm_num [failingDraws]⟩
  exact ⟨hf, h.2.2.1 hf⟩

/-- `String.prototype.includes` is exactly contiguous-substring
containment. -/
theorem containsSubstr_iff (s pat : String) :
    EnhancedHook.containsSubstr s pat = true ↔ List.IsInfix pat.data s.data := by
  simp [EnhancedHook.containsSubstr]

/-- The emergency-phrase scan fires exactly when some fixed phrase is a
substring of the lowercased transcript. -/
theorem phraseHit_iff (msg : String) :
    (EnhancedHook.emergencyPhrases.any
        (fun phrase => EnhancedHook.containsSubstr (EnhancedHook.toLowerStr msg) phrase)) = true ↔
      ∃ p ∈ EnhancedHook.emergencyPhrases, List.IsInfix p.data (EnhancedHook.toLowerStr msg).data := by
  rw [List.any_eq_true]
  constructor
  · rintro ⟨p, hp, hc⟩
    exact ⟨p, hp, (containsSubstr_iff _ _).mp hc⟩
  · rintro ⟨p, hp, hc⟩
    exact ⟨p, hp, (containsSubstr_iff _ _).mpr hc⟩

/-- The `message` handler on a nonempty transcript, with the branch
structure exposed. -/
theorem onTranscriptMessage_eq (st : EnhancedHook.MsgState) (msg : String)
    (parse : String → Option EnhancedHook.EmergencyData) (hmsg : msg ≠ "") :
    EnhancedHook.onTranscriptMessage st msg parse =
      EnhancedHook.HandlerAction.appendTranscript msg ::
      ((if EnhancedHook.emergencyPhrases.any
            (fun phrase => EnhancedHook.containsSubstr (EnhancedHook.toLowerStr msg) phrase) &&
          (st.transferState == EnhancedHook.TransferState.idle) then
          [EnhancedHook.HandlerAction.initiateTransfer st.emergencyData
            "emergency_phrase_detected"]
        else []) ++
       (if EnhancedHook.containsSubstr msg "EMERGENCY_DATA_COLLECTED" then
          match EnhancedHook.jsonMatch msg with
          | some jsonText =>
            match parse jsonText with
            | some collected =>
              [EnhancedHook.HandlerAction.setEmergencyData
                (EnhancedHook.mergeData st.emergencyData collected),
               EnhancedHook.HandlerAction.initiateTransfer
                (EnhancedHook.mergeData st.emergencyData collected)
                "data_collected"]
            | none => []
          | none => []
        else [])) := by
  unfold EnhancedHook.onTranscriptMessage
  rw [if_neg hmsg]

/-- Claim C4 (confirmed): the enhanced hook's `message` handler detects a
trigger exactly when the transcript contains a trigger phrase as a
substring — a fixed emergency phrase in the lowercased text while the
transfer status is `'idle'`, or `EMERGENCY_DATA_COLLECTED` in the raw text
with an extractable, parseable JSON object — and on detection it advances
the state machine: a phrase match initiates the transfer with the current
data, and a data-collection match merges the parsed data into the state and
initiates the transfer with it. -/
theorem transcript_trigger_detection (st : EnhancedHook.MsgState) (msg : String)
    (parse : String → Option EnhancedHook.EmergencyData) (hmsg : msg ≠ "") :
    ((∃ d r, EnhancedHook.HandlerAction.initiateTransfer d r ∈
        EnhancedHook.onTranscriptMessage st msg parse) ↔
      (((∃ p ∈ EnhancedHook.emergencyPhrases,
          List.IsInfix p.data (EnhancedHook.toLowerStr msg).data) ∧
        st.transferState = EnhancedHook.TransferState.idle) ∨
      (List.IsInfix "EMERGENCY_DATA_COLLECTED".data msg.data ∧
        ∃ j d, EnhancedHook.jsonMatch msg = some j ∧ parse j = some d))) ∧
    (((∃ p ∈ EnhancedHook.emergencyPhrases,
        List.IsInfix p.data (EnhancedHook.toLowerStr msg).data) ∧
      st.transferState = EnhancedHook.TransferState.idle) →
      EnhancedHook.HandlerAction.initiateTransfer st.emergencyData
        "emergency_phrase_detected" ∈
        EnhancedHook.onTranscriptMessage st msg parse) ∧
    (∀ j d, List.IsInfix "EMERGENCY_DATA_COLLECTED".data msg.data →
      EnhancedHook.jsonMatch msg = some j → parse j = some d →
      EnhancedHook.HandlerAction.setEmergencyData
          (EnhancedHook.mergeData st.emergencyData d) ∈
        EnhancedHook.onTranscriptMessage st msg parse ∧
      EnhancedHook.HandlerAction.initiateTransfer
          (EnhancedHook.mergeData st.emergencyData d) "data_collected" ∈
        EnhancedHook.onTranscriptMessage st msg parse) := by
  rw [onTranscriptMessage_eq st msg parse hmsg]
  rw [← containsSubstr_iff msg "EMERGENCY_DATA_COLLECTED"]
  have hAiff : (EnhancedHook.emergencyPhrases.any
      (fun phrase => EnhancedHook.containsSubstr (EnhancedHook.toLowerStr msg) phrase) &&
      (st.transferState == EnhancedHook.TransferState.idle)) = true ↔
      ((∃ p ∈ EnhancedHook.emergencyPhrases,
        List.IsInfix p.data (EnhancedHook.toLowerStr msg).data) ∧
        st.transferState = EnhancedHook.TransferState.idle) := by
    rw [Bool.and_eq_true, phraseHit_iff, beq_iff_eq]
  rw [← hAiff]
  by_cases hA : (EnhancedHook.emergencyPhrases.any
      (fun phrase => EnhancedHook.containsSubstr (EnhancedHook.toLowerStr msg) phrase) &&
      (st.transferState == EnhancedHook.TransferState.idle)) = true
  · by_cases hD : EnhancedHook.containsSubstr msg "EMERGENCY_DATA_COLLECTED" = true
    · rcases hj : EnhancedHook.jsonMatch msg with _ | j
      · simp [hA, hD, hj]
      · rcases hp : parse j with _ | d
        · simp [hA, hD, hj, hp]
          intro j1 d hj1
          subst hj1
          simp [hp]
        · simp [hA, hD, hj, hp]
          refine ⟨⟨st.emergencyData, "emergency_phrase_detected",
            Or.inl ⟨rfl, rfl⟩⟩, ?_⟩
          intro j1 d1 hj1 hp1
          subst hj1
          rw [hp] at hp1
          cases hp1
          rfl
    · simp [hA, hD]
  · by_cases hD : EnhancedHook.containsSubstr msg "EMERGENCY_DATA_COLLECTED" = true
    · rcases hj : EnhancedHook.jsonMatch msg with _ | j
      · simp [hA, hD, hj]
      · rcases hp : parse j with _ | d
        · simp [hA, hD, hj, hp]
          intro j1 d hj1
          subst hj1
          simp [hp]
        · simp [hA, hD, hj, hp]
          intro j1 d1 hj1 hp1
          subst hj1
          rw [hp] at hp1
          cases hp1
          rfl
    · simp [hA, hD]

/-- Witness for claim C4: the transcript `help` (which contains the phrase
`help`) in the idle state initiates the emergency transfer. -/
theorem transcript_trigger_detection_witness :
    EnhancedHook.HandlerAction.initiateTransfer emptyEmergencyData
        "emergency_phrase_detected" ∈
      EnhancedHook.onTranscriptMessage
        ⟨EnhancedHook.TransferState.idle, emptyEmergencyData⟩ "help"
        (fun _ => none) :=
  (transcript_trigger_detection
      ⟨EnhancedHook.TransferState.idle, emptyEmergencyData⟩ "help"
      (fun _ => none) (by decide)).2.1
    ⟨⟨"help", by decide, by decide⟩, rfl⟩

end Rescuelink
